import Mathlib

/-!
Shallow embedding of the subscription-lifecycle core of a subscription
management backend (FastAPI + SQLAlchemy).  Timestamps are modelled as
integers counting seconds; one day is 86400 seconds, matching the
resolution-independent arithmetic of `datetime`/`timedelta` (Python's
`timedelta.days` is the floor of the span divided by one day, which we
render with `Int.fdiv`).  The database session is modelled as an explicit
record of the three tables; `query(...).filter(...).first()` becomes
`List.find?`, mutation of a fetched row followed by `commit` becomes
replacing the first row with a matching primary key, and `db.add` appends.
`HTTPException` carries the status code and detail string exactly as the
routes raise them (404 for the spec's NotFound, 400 for its Conflict kind,
403 for Forbidden).
-/

/-- Status enum `SubscriptionStatus` from `app/models/models.py`. -/
inductive SubscriptionStatus : Type
  | ACTIVE
  | CANCELLED
  | EXPIRED
deriving DecidableEq, Repr

/-- The `.value` of the Python `str`-enum member. -/
def SubscriptionStatus.value : SubscriptionStatus → String
  | .ACTIVE => "ACTIVE"
  | .CANCELLED => "CANCELLED"
  | .EXPIRED => "EXPIRED"

/-- Row type `Plan` (`app/models/models.py`), restricted to the columns the
lifecycle logic reads: primary key, name, duration in days, active flag. -/
structure Plan : Type where
  id : Nat
  name : String
  duration_days : Nat
  is_active : Bool
deriving DecidableEq, Repr

/-- Row type `User` (`app/models/models.py`), restricted to the columns the
lifecycle logic reads. -/
structure User : Type where
  id : Nat
  is_active : Bool
  is_admin : Bool
deriving DecidableEq, Repr

/-- Row type `Subscription` (`app/models/models.py`): owner, plan, start/end
timestamps, lifecycle status, cancellation timestamp (NULL ↦ `none`). -/
structure Subscription : Type where
  id : Nat
  user_id : Nat
  plan_id : Nat
  start_date : Int
  end_date : Int
  status : SubscriptionStatus
  cancelled_at : Option Int
deriving DecidableEq, Repr

/-- The relational state the session reads and writes: the three tables. -/
structure DB : Type where
  users : List User
  plans : List Plan
  subscriptions : List Subscription
deriving DecidableEq, Repr

/-- One day in seconds: `timedelta(days=n)` is `n * day` seconds. -/
def day : Int := 86400

/-- Request body of POST /subscriptions (`SubscriptionCreate` schema). -/
structure SubscriptionCreate : Type where
  user_id : Nat
  plan_id : Nat
deriving DecidableEq, Repr

/-- Request body of PUT /subscriptions/{id} (`SubscriptionUpdate` schema):
both fields optional, `exclude_unset` rendered as `Option`. -/
structure SubscriptionUpdate : Type where
  plan_id : Option Nat
  status : Option SubscriptionStatus
deriving DecidableEq, Repr

/-- Failure record `HTTPException(status_code, detail)` as raised by the routes. -/
structure HTTPException : Type where
  status_code : Nat
  detail : String
deriving DecidableEq, Repr

/-- Mutating the row fetched by `query(...).filter(id == k).first()` and
committing: replace the first row whose primary key matches. -/
def updateById (sid : Nat) (f : Subscription → Subscription) :
    List Subscription → List Subscription
  | [] => []
  | s :: rest =>
      if s.id = sid then f s :: rest else s :: updateById sid f rest

/-- Handler `create_subscription` (`app/routes/subscriptions.py` lines 19-77).
`new_id` is the primary key the database assigns on insert; `now` is the
value of `datetime.utcnow()` during the request.  The authenticated
`current_user` is a dependency the handler never reads. -/
def create_subscription (now : Int) (new_id : Nat)
    (subscription : SubscriptionCreate) (db : DB) (current_user : User) :
    Except HTTPException (DB × Subscription) :=
  let uid := subscription.user_id
  let pid := subscription.plan_id
  match db.users.find? (fun u => decide (u.id = uid)) with
  | none => .error ⟨404, s!"User with ID {uid} not found"⟩
  | some _user =>
    match db.plans.find? (fun p => decide (p.id = pid)) with
    | none => .error ⟨404, s!"Plan with ID {pid} not found"⟩
    | some plan =>
      if ¬ plan.is_active then
        .error ⟨400, s!"Plan with ID {pid} is not active"⟩
      else
        match db.subscriptions.find?
            (fun s => decide (s.user_id = uid ∧ s.status = .ACTIVE)) with
        | some _active => .error ⟨400, "User already has an active subscription"⟩
        | none =>
          let start_date := now
          let end_date := start_date + day * plan.duration_days
          let new_subscription : Subscription :=
            ⟨new_id, uid, pid, start_date, end_date, .ACTIVE, none⟩
          .ok ({ db with subscriptions := db.subscriptions ++ [new_subscription] },
               new_subscription)

/-- The `setattr` loop of `update_subscription`: apply the keys present in
`update_data` (`plan_id`, the derived `end_date`, `status`, and the
`cancelled_at` side effect added when the target status is CANCELLED). -/
def applySubscriptionUpdate (now : Int) (s : Subscription)
    (pid : Option Nat) (new_end : Option Int)
    (st : Option SubscriptionStatus) : Subscription :=
  let s1 := match pid with
    | some p => { s with plan_id := p }
    | none => s
  let s2 := match new_end with
    | some e => { s1 with end_date := e }
    | none => s1
  let s3 := match st with
    | some v => { s2 with status := v }
    | none => s2
  match st with
  | some SubscriptionStatus.CANCELLED => { s3 with cancelled_at := some now }
  | _ => s3

/-- Handler `update_subscription` (`app/routes/subscriptions.py` lines 189-252):
the ChangePlan / SetStatus entry point.  When `plan_id` is present the new
`end_date` carries forward the clamped remaining whole days
(`(end_date - utcnow()).days`, Python floor division, clamped at zero)
added to the new plan's duration; when the target status is CANCELLED,
`cancelled_at` is set to `now`. -/
def update_subscription (now : Int) (subscription_id : Nat)
    (subscription_update : SubscriptionUpdate) (db : DB)
    (current_user : User) : Except HTTPException (DB × Subscription) :=
  match db.subscriptions.find? (fun s => decide (s.id = subscription_id)) with
  | none => .error ⟨404, s!"Subscription with ID {subscription_id} not found"⟩
  | some subscription =>
    if current_user.id ≠ subscription.user_id ∧ ¬ current_user.is_admin then
      .error ⟨403, "Not authorized to access this resource"⟩
    else
      match subscription_update.plan_id with
      | some pid =>
        match db.plans.find? (fun p => decide (p.id = pid)) with
        | none => .error ⟨404, s!"Plan with ID {pid} not found"⟩
        | some plan =>
          if ¬ plan.is_active then
            .error ⟨400, s!"Plan with ID {pid} is not active"⟩
          else
            let days_left := Int.fdiv (subscription.end_date - now) day
            let days_left := if days_left < 0 then 0 else days_left
            let new_end_date := now + day * (plan.duration_days + days_left)
            let updated := applySubscriptionUpdate now subscription
              (some pid) (some new_end_date) subscription_update.status
            let subs2 :=
              updateById subscription_id (fun _ => updated) db.subscriptions
            .ok ({ db with subscriptions := subs2 }, updated)
      | none =>
        let updated := applySubscriptionUpdate now subscription
          none none subscription_update.status
        let subs2 :=
          updateById subscription_id (fun _ => updated) db.subscriptions
        .ok ({ db with subscriptions := subs2 }, updated)

/-- Handler `cancel_subscription` (`app/routes/subscriptions.py` lines 254-289):
only an Active subscription may be cancelled; the handler returns no body
(`None`), so on success only the new state is produced. -/
def cancel_subscription (now : Int) (subscription_id : Nat) (db : DB)
    (current_user : User) : Except HTTPException DB :=
  match db.subscriptions.find? (fun s => decide (s.id = subscription_id)) with
  | none => .error ⟨404, s!"Subscription with ID {subscription_id} not found"⟩
  | some subscription =>
    if current_user.id ≠ subscription.user_id ∧ ¬ current_user.is_admin then
      .error ⟨403, "Not authorized to access this resource"⟩
    else
      if subscription.status ≠ SubscriptionStatus.ACTIVE then
        .error ⟨400, "Subscription is already " ++ subscription.status.value⟩
      else
        let cancelled := { subscription with
                             status := SubscriptionStatus.CANCELLED,
                             cancelled_at := some now }
        let subs2 :=
          updateById subscription_id (fun _ => cancelled) db.subscriptions
        .ok { db with subscriptions := subs2 }

/-- The rows `check_expired_subscriptions` selects: status ACTIVE and
`end_date < utcnow()` (`app/services/subscription_service.py` lines 21-24). -/
def expiredSelection (now : Int) (db : DB) : List Subscription :=
  db.subscriptions.filter
    (fun s => decide (s.status = SubscriptionStatus.ACTIVE ∧ s.end_date < now))

/-- The per-row effect of the sweep loop: a selected row's status is set to
EXPIRED, every other row is untouched. -/
def sweepRow (now : Int) (s : Subscription) : Subscription :=
  if s.status = SubscriptionStatus.ACTIVE ∧ s.end_date < now then
    { s with status := SubscriptionStatus.EXPIRED }
  else s

/-- Service function `check_expired_subscriptions` (`app/services/subscription_service.py`
lines 12-40).  The loop mutates each selected row in place and commits as
one unit, which on the table is `map (sweepRow now)`; `commit_ok` models
whether the commit raises, in which case `db.rollback()` restores the
original state.  The Python function has no `return` statement, so its
value is `None` (`none`) on every path; the count of selected rows is only
logged. -/
def check_expired_subscriptions (now : Int) (commit_ok : Bool) (db : DB) :
    DB × Option Nat :=
  if commit_ok then
    ({ db with subscriptions := db.subscriptions.map (sweepRow now) }, none)
  else
    (db, none)

/-- The operations the lifecycle claims range over, each carrying the
clock/requester inputs the route receives. -/
inductive Op : Type
  | create (now : Int) (new_id : Nat) (req : SubscriptionCreate)
      (current_user : User)
  | update (now : Int) (subscription_id : Nat) (u : SubscriptionUpdate)
      (current_user : User)
  | cancel (now : Int) (subscription_id : Nat) (current_user : User)
  | sweep (now : Int) (commit_ok : Bool)

/-- Apply one operation to the state; a request that fails with an
`HTTPException` leaves the database unchanged (each handler raises before
any mutation). -/
def applyOp (db : DB) : Op → DB
  | .create now new_id req current_user =>
    match create_subscription now new_id req db current_user with
    | .ok (db2, _) => db2
    | .error _ => db
  | .update now subscription_id u current_user =>
    match update_subscription now subscription_id u db current_user with
    | .ok (db2, _) => db2
    | .error _ => db
  | .cancel now subscription_id current_user =>
    match cancel_subscription now subscription_id db current_user with
    | .ok db2 => db2
    | .error _ => db
  | .sweep now commit_ok => (check_expired_subscriptions now commit_ok db).1

/-- Run a sequence of operations. -/
def run (db : DB) (ops : List Op) : DB :=
  ops.foldl applyOp db

/-- Whether an operation is the generic status-update entry point. -/
def Op.isUpdate : Op → Bool
  | .update _ _ _ _ => true
  | _ => false

/-- Whether an operation avoids the unguarded SetStatus transitions: it is
anything but a status update whose target status is ACTIVE or EXPIRED
(those are the updates the spec's §9 open question flags). -/
def Op.couplingOk : Op → Bool
  | .update _ _ u _ =>
    match u.status with
    | none => true
    | some SubscriptionStatus.CANCELLED => true
    | some _ => false
  | _ => true

/-- Number of Active subscriptions a user holds. -/
def activeCount (uid : Nat) (subs : List Subscription) : Nat :=
  subs.countP (fun s => decide (s.user_id = uid ∧ s.status = .ACTIVE))

/-- The single-active invariant: no user holds two Active subscriptions. -/
def SingleActive (subs : List Subscription) : Prop :=
  ∀ s ∈ subs, activeCount s.user_id subs ≤ 1

instance (subs : List Subscription) : Decidable (SingleActive subs) :=
  inferInstanceAs (Decidable (∀ s ∈ subs, activeCount s.user_id subs ≤ 1))

/-- The cancelled_at/status coupling: `cancelled_at` is non-null iff the
status is CANCELLED. -/
def CancelCoupling (subs : List Subscription) : Prop :=
  ∀ s ∈ subs, (s.cancelled_at ≠ none ↔ s.status = SubscriptionStatus.CANCELLED)

instance (subs : List Subscription) : Decidable (CancelCoupling subs) :=
  inferInstanceAs (Decidable (∀ s ∈ subs,
    (s.cancelled_at ≠ none ↔ s.status = SubscriptionStatus.CANCELLED)))

/-- The carry-forward formula the plan-change branch computes:
`now + (p + d)` days with `d = max(0, floor((end_date_old - now) / day))`
the clamped remaining whole days (the code writes the clamp as an
if-negative-then-zero, which equals the `max`). -/
def carryForwardEnd (now : Int) (p : Nat) (end_date_old : Int) : Int :=
  now + day * (p + max 0 (Int.fdiv (end_date_old - now) day))

/-- The row mutation cancel performs: status CANCELLED, `cancelled_at = now`. -/
def cancelledRow (now : Int) (s : Subscription) : Subscription :=
  { s with status := SubscriptionStatus.CANCELLED, cancelled_at := some now }

/-! Concrete fixtures used by witnesses and counterexamples. -/

/-- A regular (non-admin) user. -/
def user1 : User := ⟨1, true, false⟩

/-- A second regular user, unrelated to user 1's subscriptions. -/
def user2 : User := ⟨2, true, false⟩

/-- An administrator. -/
def adminUser : User := ⟨9, true, true⟩

/-- An active 30-day plan. -/
def plan30 : Plan := ⟨1, "basic", 30, true⟩

/-- An active 20-day plan. -/
def plan20 : Plan := ⟨2, "pro", 20, true⟩

/-- An inactive plan. -/
def planOff : Plan := ⟨3, "legacy", 10, false⟩

/-- A database with two users, three plans and no subscriptions. -/
def dbEmpty : DB := ⟨[user1, user2], [plan30, plan20, planOff], []⟩

/-- User 1 holding an Active subscription to plan 1 that ends at t = 5. -/
def subEnd5 : Subscription := ⟨1, 1, 1, 0, 5, .ACTIVE, none⟩

/-- A database whose only subscription is `subEnd5`. -/
def dbEnd5 : DB := ⟨[user1, user2], [plan30, plan20, planOff], [subEnd5]⟩

/-- User 1 holding a Cancelled subscription with `cancelled_at = 5`. -/
def subCancelled : Subscription := ⟨1, 1, 1, 0, 100, .CANCELLED, some 5⟩

/-- A database whose only subscription is `subCancelled`. -/
def dbCancelled : DB := ⟨[user1, user2], [plan30, plan20, planOff], [subCancelled]⟩

/-! Helper lemmas. -/

theorem countP_updateById_le (p : Subscription → Bool) (sid : Nat)
    (f : Subscription → Subscription)
    (hf : ∀ s, p (f s) = true → p s = true) :
    ∀ l : List Subscription, (updateById sid f l).countP p ≤ l.countP p
  | [] => le_refl _
  | s :: rest => by
    rw [updateById]
    split
    · rw [List.countP_cons, List.countP_cons]
      have h := hf s
      cases hfs : p (f s) <;> cases hs : p s <;> simp_all
    · rw [List.countP_cons, List.countP_cons]
      have ih := countP_updateById_le p sid f hf rest
      omega

theorem mem_updateById {s2 : Subscription} (sid : Nat)
    (f : Subscription → Subscription) :
    ∀ l : List Subscription, s2 ∈ updateById sid f l →
      s2 ∈ l ∨ ∃ s0 ∈ l, s2 = f s0
  | [] => by simp [updateById]
  | s :: rest => by
    rw [updateById]
    split
    · intro h
      rcases List.mem_cons.mp h with h1 | h1
      · exact Or.inr ⟨s, List.mem_cons_self s rest, h1⟩
      · exact Or.inl (List.mem_cons_of_mem _ h1)
    · intro h
      rcases List.mem_cons.mp h with h1 | h1
      · exact Or.inl (h1 ▸ List.mem_cons_self s rest)
      · rcases mem_updateById sid f rest h1 with h2 | ⟨s0, hs0, he⟩
        · exact Or.inl (List.mem_cons_of_mem _ h2)
        · exact Or.inr ⟨s0, List.mem_cons_of_mem _ hs0, he⟩

theorem find?_updateById_eq (sid : Nat) (c : Subscription) (hc : c.id = sid) :
    ∀ l : List Subscription,
      (l.find? (fun x => decide (x.id = sid))).isSome = true →
      (updateById sid (fun _ => c) l).find? (fun x => decide (x.id = sid)) =
        some c
  | [] => by simp
  | s :: rest => by
    rw [updateById]
    by_cases h : s.id = sid
    · intro _
      rw [if_pos h]
      exact List.find?_cons_of_pos _ (by simp [hc])
    · intro hsome
      rw [if_neg h]
      rw [List.find?_cons_of_neg _ (by simp [h])]
      rw [List.find?_cons_of_neg _ (by simp [h])] at hsome
      exact find?_updateById_eq sid c hc rest hsome

theorem sweepRow_user_id (now : Int) (s : Subscription) :
    (sweepRow now s).user_id = s.user_id := by
  unfold sweepRow
  split <;> rfl

theorem sweepRow_cancelled_at (now : Int) (s : Subscription) :
    (sweepRow now s).cancelled_at = s.cancelled_at := by
  unfold sweepRow
  split <;> rfl

theorem sweepRow_of_not_selected (now : Int) (s : Subscription)
    (h : ¬ (s.status = SubscriptionStatus.ACTIVE ∧ s.end_date < now)) :
    sweepRow now s = s := by
  unfold sweepRow
  exact if_neg h

theorem sweepRow_of_selected (now : Int) (s : Subscription)
    (h : s.status = SubscriptionStatus.ACTIVE ∧ s.end_date < now) :
    sweepRow now s = { s with status := SubscriptionStatus.EXPIRED } := by
  unfold sweepRow
  exact if_pos h

theorem sweepRow_active (now : Int) (s : Subscription)
    (h : (sweepRow now s).status = SubscriptionStatus.ACTIVE) :
    s.status = SubscriptionStatus.ACTIVE ∧ sweepRow now s = s := by
  unfold sweepRow at h
  split at h
  · simp at h
  · rename_i hcond
    exact ⟨h, sweepRow_of_not_selected now s hcond⟩

theorem applySubscriptionUpdate_fields (now : Int) (s : Subscription)
    (pid : Option Nat) (e : Option Int) (st : Option SubscriptionStatus) :
    (applySubscriptionUpdate now s pid e st).id = s.id ∧
    (applySubscriptionUpdate now s pid e st).user_id = s.user_id ∧
    (applySubscriptionUpdate now s pid e st).start_date = s.start_date ∧
    (applySubscriptionUpdate now s pid e st).plan_id = pid.getD s.plan_id ∧
    (applySubscriptionUpdate now s pid e st).end_date = e.getD s.end_date ∧
    (applySubscriptionUpdate now s pid e st).status = st.getD s.status ∧
    (applySubscriptionUpdate now s pid e st).cancelled_at =
      (if st = some SubscriptionStatus.CANCELLED then some now
       else s.cancelled_at) := by
  unfold applySubscriptionUpdate
  rcases st with _ | st
  · cases pid <;> cases e <;> simp
  · cases st <;> cases pid <;> cases e <;> simp

theorem create_ok_shape {now : Int} {new_id : Nat} {req : SubscriptionCreate}
    {db db2 : DB} {cu : User} {sub : Subscription}
    (h : create_subscription now new_id req db cu = .ok (db2, sub)) :
    db2.users = db.users ∧ db2.plans = db.plans ∧
    db2.subscriptions = db.subscriptions ++ [sub] ∧
    sub.user_id = req.user_id ∧ sub.status = SubscriptionStatus.ACTIVE ∧
    sub.cancelled_at = none ∧
    db.subscriptions.find?
      (fun s => decide (s.user_id = req.user_id ∧
        s.status = SubscriptionStatus.ACTIVE)) = none := by
  simp only [create_subscription] at h
  split at h
  · simp at h
  · split at h
    · simp at h
    · split at h
      · simp at h
      · split at h
        · simp at h
        · rename_i hnone
          obtain ⟨hdb, hsub⟩ := by simpa using h
          subst hdb hsub
          refine ⟨rfl, rfl, rfl, rfl, rfl, rfl, hnone⟩

theorem cancel_ok_shape {now : Int} {sid : Nat} {db db2 : DB} {cu : User}
    (h : cancel_subscription now sid db cu = .ok db2) :
    ∃ sub, db.subscriptions.find? (fun s => decide (s.id = sid)) = some sub ∧
      sub.status = SubscriptionStatus.ACTIVE ∧
      ¬ (cu.id ≠ sub.user_id ∧ ¬ cu.is_admin = true) ∧
      db2.users = db.users ∧ db2.plans = db.plans ∧
      db2.subscriptions = updateById sid
        (fun _ => { sub with status := SubscriptionStatus.CANCELLED,
                             cancelled_at := some now }) db.subscriptions := by
  simp only [cancel_subscription] at h
  split at h
  · simp at h
  · rename_i sub hfind
    split at h
    · simp at h
    · split at h
      · simp at h
      · rename_i hauth hstat
        have hdb := by simpa using h
        subst hdb
        exact ⟨sub, hfind, by simpa using hstat, by simpa using hauth,
               rfl, rfl, rfl⟩

theorem update_ok_shape {now : Int} {sid : Nat} {u : SubscriptionUpdate}
    {db db2 : DB} {cu : User} {s2 : Subscription}
    (h : update_subscription now sid u db cu = .ok (db2, s2)) :
    ∃ sub pid2 e2,
      db.subscriptions.find? (fun s => decide (s.id = sid)) = some sub ∧
      s2 = applySubscriptionUpdate now sub pid2 e2 u.status ∧
      db2.users = db.users ∧ db2.plans = db.plans ∧
      db2.subscriptions = updateById sid (fun _ => s2) db.subscriptions := by
  simp only [update_subscription] at h
  split at h
  · simp at h
  · rename_i sub hfind
    split at h
    · simp at h
    · split at h
      · rename_i pid hpid
        split at h
        · simp at h
        · split at h
          · simp at h
          · obtain ⟨hdb, hsub⟩ := by simpa using h
            subst hdb
            exact ⟨sub, some pid, _, hfind, hsub.symm, rfl, rfl, by rw [hsub]⟩
      · obtain ⟨hdb, hsub⟩ := by simpa using h
        subst hdb
        exact ⟨sub, none, none, hfind, hsub.symm, rfl, rfl, by rw [hsub]⟩

theorem singleActive_append (subs : List Subscription) (new : Subscription)
    (hstat : new.status = SubscriptionStatus.ACTIVE)
    (hnone : subs.find?
      (fun s => decide (s.user_id = new.user_id ∧
        s.status = SubscriptionStatus.ACTIVE)) = none)
    (h : SingleActive subs) : SingleActive (subs ++ [new]) := by
  have hzero : activeCount new.user_id subs = 0 := by
    refine List.countP_eq_zero.mpr ?_
    intro a ha
    exact List.find?_eq_none.mp hnone a ha
  intro s hs
  have hsplit : activeCount s.user_id (subs ++ [new]) =
      activeCount s.user_id subs +
        List.countP (fun x => decide (x.user_id = s.user_id ∧
          x.status = SubscriptionStatus.ACTIVE)) [new] := by
    simp [activeCount, List.countP_append]
  have hone : List.countP (fun x => decide (x.user_id = s.user_id ∧
      x.status = SubscriptionStatus.ACTIVE)) [new] ≤ 1 := by
    simp only [List.countP_cons, List.countP_nil]
    split <;> omega
  rcases List.mem_append.mp hs with hl | hr
  · by_cases he : s.user_id = new.user_id
    · rw [hsplit, he, hzero]
      simp only [List.countP_cons, List.countP_nil]
      split <;> omega
    · have hnew : List.countP (fun x => decide (x.user_id = s.user_id ∧
          x.status = SubscriptionStatus.ACTIVE)) [new] = 0 := by
        simp only [List.countP_cons, List.countP_nil]
        rw [if_neg (by simp; intro hx; exact absurd hx.symm he)]
      rw [hsplit, hnew]
      have := h s hl
      omega
  · have he : s = new := by simpa using hr
    rw [hsplit, he, hzero]
    simp only [List.countP_cons, List.countP_nil]
    split <;> omega

theorem singleActive_updateById (subs : List Subscription) (sid : Nat)
    (c : Subscription) (sub : Subscription) (hmem : sub ∈ subs)
    (huid : c.user_id = sub.user_id)
    (hc : ¬ c.status = SubscriptionStatus.ACTIVE)
    (h : SingleActive subs) :
    SingleActive (updateById sid (fun _ => c) subs) := by
  intro s hs
  have hle := countP_updateById_le
    (fun x => decide (x.user_id = s.user_id ∧
      x.status = SubscriptionStatus.ACTIVE)) sid (fun _ => c)
    (by intro x hx; simp at hx; exact absurd hx.2 hc) subs
  have hbound : activeCount s.user_id subs ≤ 1 := by
    rcases mem_updateById sid (fun _ => c) subs hs with hl | ⟨s0, _, he⟩
    · exact h s hl
    · have : s.user_id = sub.user_id := by rw [he]; exact huid
      rw [activeCount, this]
      exact h sub hmem
  exact le_trans hle hbound

theorem singleActive_sweep (subs : List Subscription) (now : Int)
    (h : SingleActive subs) : SingleActive (subs.map (sweepRow now)) := by
  intro s hs
  obtain ⟨s0, hs0, he⟩ := List.mem_map.mp hs
  have hle : activeCount s.user_id (subs.map (sweepRow now)) ≤
      activeCount s.user_id subs := by
    rw [activeCount, List.countP_map]
    refine List.countP_mono_left ?_
    intro x _ hx
    simp only [Function.comp_apply, decide_eq_true_eq] at hx
    obtain ⟨hu, hst⟩ := hx
    have := sweepRow_active now x hst
    simp only [decide_eq_true_eq]
    refine ⟨?_, this.1⟩
    rw [← sweepRow_user_id now x]
    exact hu
  have huid : s.user_id = s0.user_id := by rw [← he]; exact sweepRow_user_id now s0
  have hbound : activeCount s.user_id subs ≤ 1 := by
    rw [activeCount, huid]
    exact h s0 hs0
  exact le_trans hle hbound

theorem singleActive_applyOp (db : DB) (op : Op) (hop : op.isUpdate = false)
    (h : SingleActive db.subscriptions) :
    SingleActive (applyOp db op).subscriptions := by
  cases op with
  | create now new_id req cu =>
    cases hc : create_subscription now new_id req db cu with
    | error e => simpa [applyOp, hc] using h
    | ok r =>
      obtain ⟨db2, sub⟩ := r
      simp only [applyOp, hc]
      obtain ⟨_, _, hsubs, huid, hstat, _, hnone⟩ := create_ok_shape hc
      rw [hsubs]
      exact singleActive_append db.subscriptions sub hstat (huid ▸ hnone) h
  | update now sid u cu => simp [Op.isUpdate] at hop
  | cancel now sid cu =>
    cases hc : cancel_subscription now sid db cu with
    | error e => simpa [applyOp, hc] using h
    | ok db2 =>
      simp only [applyOp, hc]
      obtain ⟨sub, hfind, _, _, _, _, hsubs⟩ := cancel_ok_shape hc
      rw [hsubs]
      exact singleActive_updateById db.subscriptions sid _ sub
        (List.mem_of_find?_eq_some hfind) rfl (by simp) h
  | sweep now commit_ok =>
    cases commit_ok with
    | false => simpa [applyOp, check_expired_subscriptions] using h
    | true =>
      simp only [applyOp, check_expired_subscriptions]
      exact singleActive_sweep db.subscriptions now h

theorem singleActive_run (ops : List Op) :
    ∀ db : DB, (∀ op ∈ ops, op.isUpdate = false) →
      SingleActive db.subscriptions → SingleActive (run db ops).subscriptions := by
  induction ops with
  | nil => intro db _ h; simpa [run] using h
  | cons op rest ih =>
    intro db hops h
    have h1 := singleActive_applyOp db op (hops op (List.mem_cons_self op rest)) h
    have h2 := ih (applyOp db op)
      (fun o ho => hops o (List.mem_cons_of_mem _ ho)) h1
    simpa [run, List.foldl_cons] using h2

/-- C1: starting from a state in which every user holds at most one Active
subscription, any sequence of Create, Cancel and SweepExpired calls preserves
that invariant; and Create refuses — with the 400 response that realizes the
spec's Conflict kind — to insert a new subscription whenever the target user
already holds an Active one (given the user and plan checks that precede the
duplicate check pass). -/
theorem single_active_invariant (db : DB) (ops : List Op)
    (hops : ∀ op ∈ ops, op.isUpdate = false)
    (h : SingleActive db.subscriptions) :
    SingleActive (run db ops).subscriptions ∧
    ∀ (db2 : DB) (now : Int) (new_id : Nat) (req : SubscriptionCreate)
      (cu : User) (u : User) (p : Plan),
      db2.users.find? (fun x => decide (x.id = req.user_id)) = some u →
      db2.plans.find? (fun x => decide (x.id = req.plan_id)) = some p →
      p.is_active = true →
      (db2.subscriptions.find? (fun s => decide (s.user_id = req.user_id ∧
        s.status = SubscriptionStatus.ACTIVE))).isSome = true →
      create_subscription now new_id req db2 cu =
        .error ⟨400, "User already has an active subscription"⟩ := by
  refine ⟨singleActive_run ops db hops h, ?_⟩
  intro db2 now new_id req cu u p hu hp hact hdup
  obtain ⟨s, hs⟩ := Option.isSome_iff_exists.mp hdup
  simp only [create_subscription, hu, hp, hact]
  rw [hs]
  rfl

/-- Witness for C1 at a concrete run: create, cancel, then sweep on the
two-user fixture database. -/
theorem single_active_invariant_witness :
    SingleActive (run dbEmpty
      [Op.create 0 1 ⟨1, 1⟩ user2, Op.cancel 5 1 user1,
       Op.sweep 10 true]).subscriptions :=
  (single_active_invariant dbEmpty
    [Op.create 0 1 ⟨1, 1⟩ user2, Op.cancel 5 1 user1, Op.sweep 10 true]
    (by decide) (by decide)).1

/-- C3: `create_subscription` fails with 404 (NotFound) when the user or the
plan is missing, with 400 (the Conflict kind) when the plan is inactive or
the user already holds an Active subscription, and otherwise persists and
returns a subscription with `start_date = now`,
`end_date = now + plan.duration_days` days and status ACTIVE. -/
theorem create_subscription_spec (now : Int) (new_id : Nat)
    (req : SubscriptionCreate) (db : DB) (cu : User) :
    (db.users.find? (fun x => decide (x.id = req.user_id)) = none →
      create_subscription now new_id req db cu =
        .error ⟨404, "User with ID " ++ toString req.user_id ++
          " not found"⟩) ∧
    (∀ u, db.users.find? (fun x => decide (x.id = req.user_id)) = some u →
      db.plans.find? (fun x => decide (x.id = req.plan_id)) = none →
      create_subscription now new_id req db cu =
        .error ⟨404, "Plan with ID " ++ toString req.plan_id ++
          " not found"⟩) ∧
    (∀ u p, db.users.find? (fun x => decide (x.id = req.user_id)) = some u →
      db.plans.find? (fun x => decide (x.id = req.plan_id)) = some p →
      p.is_active = false →
      create_subscription now new_id req db cu =
        .error ⟨400, "Plan with ID " ++ toString req.plan_id ++
          " is not active"⟩) ∧
    (∀ u p, db.users.find? (fun x => decide (x.id = req.user_id)) = some u →
      db.plans.find? (fun x => decide (x.id = req.plan_id)) = some p →
      p.is_active = true →
      (db.subscriptions.find? (fun s => decide (s.user_id = req.user_id ∧
        s.status = SubscriptionStatus.ACTIVE))).isSome = true →
      create_subscription now new_id req db cu =
        .error ⟨400, "User already has an active subscription"⟩) ∧
    (∀ u p, db.users.find? (fun x => decide (x.id = req.user_id)) = some u →
      db.plans.find? (fun x => decide (x.id = req.plan_id)) = some p →
      p.is_active = true →
      db.subscriptions.find? (fun s => decide (s.user_id = req.user_id ∧
        s.status = SubscriptionStatus.ACTIVE)) = none →
      create_subscription now new_id req db cu =
        .ok ({ db with subscriptions := db.subscriptions ++
                 [⟨new_id, req.user_id, req.plan_id, now,
                   now + day * p.duration_days,
                   SubscriptionStatus.ACTIVE, none⟩] },
             ⟨new_id, req.user_id, req.plan_id, now,
              now + day * p.duration_days,
              SubscriptionStatus.ACTIVE, none⟩)) := by
  refine ⟨?_, ?_, ?_, ?_, ?_⟩
  · intro hu
    simp only [create_subscription, hu]
    rfl
  · intro u hu hp
    simp only [create_subscription, hu, hp]
    rfl
  · intro u p hu hp hact
    simp only [create_subscription, hu, hp, hact]
    rfl
  · intro u p hu hp hact hdup
    obtain ⟨s, hs⟩ := Option.isSome_iff_exists.mp hdup
    simp only [create_subscription, hu, hp, hact]
    rw [hs]
    rfl
  · intro u p hu hp hact hnone
    simp only [create_subscription, hu, hp, hact]
    rw [hnone]
    rfl

/-- Witness for C3: on the fixture database with no subscriptions, creating
a subscription to the 30-day plan succeeds with the expected record. -/
theorem create_subscription_spec_witness :
    create_subscription 0 1 ⟨1, 1⟩ dbEmpty user2 =
      .ok ({ dbEmpty with subscriptions :=
               [⟨1, 1, 1, 0, 2592000, SubscriptionStatus.ACTIVE, none⟩] },
           ⟨1, 1, 1, 0, 2592000, SubscriptionStatus.ACTIVE, none⟩) :=
  (create_subscription_spec 0 1 ⟨1, 1⟩ dbEmpty user2).2.2.2.2 user1 plan30
    (by rfl) (by rfl) (by rfl) (by rfl)

/-- C9: the create handler never reads its authenticated requester — the
result is identical for any two requesters and is never a 403 (Forbidden) —
whereas the cancel handler rejects a requester who is neither the owner nor
an admin with 403. -/
theorem create_ignores_requester (now : Int) (new_id : Nat)
    (req : SubscriptionCreate) (db : DB) (cu cu2 : User) :
    create_subscription now new_id req db cu =
      create_subscription now new_id req db cu2 ∧
    (∀ e, create_subscription now new_id req db cu = .error e →
      e.status_code ≠ 403) ∧
    (∀ sid sub,
      db.subscriptions.find? (fun s => decide (s.id = sid)) = some sub →
      cu.id ≠ sub.user_id → cu.is_admin = false →
      cancel_subscription now sid db cu =
        .error ⟨403, "Not authorized to access this resource"⟩) := by
  refine ⟨rfl, ?_, ?_⟩
  · intro e he
    simp only [create_subscription] at he
    split at he
    · simp only [Except.error.injEq] at he
      rw [← he]
      simp
    · split at he
      · simp only [Except.error.injEq] at he
        rw [← he]
        simp
      · split at he
        · simp only [Except.error.injEq] at he
          rw [← he]
          simp
        · split at he
          · simp only [Except.error.injEq] at he
            rw [← he]
            simp
          · simp at he
  · intro sid sub hfind h1 h2
    simp [cancel_subscription, hfind, h1, h2]

/-- Witness for C9: requester user 2 (not the owner, not an admin) gets 403
from cancel on user 1's subscription, while the same requester's identity is
irrelevant to create. -/
theorem create_ignores_requester_witness :
    cancel_subscription 0 1 dbEnd5 user2 =
      .error ⟨403, "Not authorized to access this resource"⟩ :=
  (create_ignores_requester 0 1 ⟨1, 1⟩ dbEnd5 user2 user1).2.2 1 subEnd5
    (by rfl) (by decide) (by rfl)

/-- C2: for an existing subscription and an existing active new plan of
duration `p`, the plan-change update sets `end_date` to
`now + (p + d)` days where `d = max(0, floor((end_date_old - now) / day))`
is the clamped remaining whole days: unused time is carried forward, never
prorated. -/
theorem change_plan_carry_forward (now : Int) (sid pid : Nat) (db : DB)
    (cu : User) (sub : Subscription) (plan : Plan)
    (hfind : db.subscriptions.find? (fun s => decide (s.id = sid)) = some sub)
    (hauth : cu.id = sub.user_id ∨ cu.is_admin = true)
    (hplan : db.plans.find? (fun p => decide (p.id = pid)) = some plan)
    (hact : plan.is_active = true) :
    update_subscription now sid ⟨some pid, none⟩ db cu =
      .ok ({ db with
               subscriptions := updateById sid
                 (fun _ => { sub with
                               plan_id := pid,
                               end_date := carryForwardEnd now
                                 plan.duration_days sub.end_date })
                 db.subscriptions },
           { sub with
               plan_id := pid,
               end_date := carryForwardEnd now plan.duration_days
                 sub.end_date }) := by
  have hauth2 : ¬ (cu.id ≠ sub.user_id ∧ ¬ cu.is_admin = true) := by
    rcases hauth with h1 | h1 <;> simp [h1]
  have hmax : (if Int.fdiv (sub.end_date - now) day < 0 then 0
      else Int.fdiv (sub.end_date - now) day) =
      max 0 (Int.fdiv (sub.end_date - now) day) := by omega
  simp only [update_subscription, hfind, hplan, hact]
  rw [if_neg hauth2]
  simp only [hmax]
  rfl

/-- Witness for C2: user 1's subscription ends at t = 5; at now = 10
(already past, so zero days carry over) switching to the 20-day plan yields
`end_date = 10 + 20 days = 1728010`. -/
theorem change_plan_carry_forward_witness :
    update_subscription 10 1 ⟨some 2, none⟩ dbEnd5 user1 =
      .ok ({ dbEnd5 with subscriptions :=
               [⟨1, 1, 2, 0, 1728010, SubscriptionStatus.ACTIVE, none⟩] },
           ⟨1, 1, 2, 0, 1728010, SubscriptionStatus.ACTIVE, none⟩) :=
  change_plan_carry_forward 10 1 2 dbEnd5 user1 subEnd5 plan20
    (by rfl) (Or.inl rfl) (by rfl) (by rfl)

/-- C4: for an existing subscription whose requester is the owner or an
admin, cancel succeeds iff the status is Active, setting status CANCELLED
and `cancelled_at = now`; from a non-Active status it fails with 400 (the
Conflict kind) echoing the current status and changes nothing, so a second
cancel returns that Conflict and leaves `cancelled_at` as the first set
it. -/
theorem cancel_subscription_spec (now now2 : Int) (sid : Nat) (db : DB)
    (cu : User) (sub : Subscription)
    (hfind : db.subscriptions.find? (fun s => decide (s.id = sid)) = some sub)
    (hauth : cu.id = sub.user_id ∨ cu.is_admin = true) :
    (sub.status = SubscriptionStatus.ACTIVE →
      cancel_subscription now sid db cu =
        .ok { db with
                subscriptions := updateById sid
                  (fun _ => cancelledRow now sub) db.subscriptions }) ∧
    (sub.status ≠ SubscriptionStatus.ACTIVE →
      cancel_subscription now sid db cu =
        .error ⟨400, "Subscription is already " ++ sub.status.value⟩) ∧
    (∀ db2, sub.status = SubscriptionStatus.ACTIVE →
      cancel_subscription now sid db cu = .ok db2 →
      cancel_subscription now2 sid db2 cu =
        .error ⟨400, "Subscription is already CANCELLED"⟩ ∧
      db2.subscriptions.find? (fun s => decide (s.id = sid)) =
        some (cancelledRow now sub)) := by
  have hid : sub.id = sid := by simpa using List.find?_some hfind
  have hauth2 : ¬ (cu.id ≠ sub.user_id ∧ ¬ cu.is_admin = true) := by
    rcases hauth with h1 | h1 <;> simp [h1]
  have hok : sub.status = SubscriptionStatus.ACTIVE →
      cancel_subscription now sid db cu =
        .ok { db with
                subscriptions := updateById sid
                  (fun _ => cancelledRow now sub) db.subscriptions } := by
    intro hstat
    simp only [cancel_subscription, hfind]
    rw [if_neg hauth2, if_neg (by simp [hstat])]
    rfl
  refine ⟨hok, ?_, ?_⟩
  · intro hstat
    simp only [cancel_subscription, hfind]
    rw [if_neg hauth2, if_pos hstat]
  · intro db2 hstat hcancel
    rw [hok hstat] at hcancel
    have hdb2 : db2 = { db with
        subscriptions := updateById sid
          (fun _ => cancelledRow now sub) db.subscriptions } := by
      simpa using hcancel.symm
    subst hdb2
    have hfind2 : (updateById sid (fun _ => cancelledRow now sub)
        db.subscriptions).find? (fun s => decide (s.id = sid)) =
        some (cancelledRow now sub) := by
      refine find?_updateById_eq sid (cancelledRow now sub) hid
        db.subscriptions ?_
      rw [hfind]
      rfl
    refine ⟨?_, hfind2⟩
    simp only [cancel_subscription, hfind2]
    have hauth3 : ¬ (cu.id ≠ (cancelledRow now sub).user_id ∧
        ¬ cu.is_admin = true) := hauth2
    rw [if_neg hauth3, if_pos (by simp [cancelledRow])]
    rfl

/-- Witness for C4: the first cancel at t = 3 succeeds; the second cancel
at t = 7 is rejected with the status-echoing 400 and the stored
`cancelled_at` is still 3. -/
theorem cancel_subscription_spec_witness :
    cancel_subscription 7 1
        { dbEnd5 with subscriptions := [cancelledRow 3 subEnd5] } user1 =
      .error ⟨400, "Subscription is already CANCELLED"⟩ ∧
    ({ dbEnd5 with subscriptions := [cancelledRow 3 subEnd5] } :
       DB).subscriptions.find? (fun s => decide (s.id = 1)) =
      some (cancelledRow 3 subEnd5) :=
  (cancel_subscription_spec 3 7 1 dbEnd5 user1 subEnd5 (by rfl)
    (Or.inl rfl)).2.2
    { dbEnd5 with subscriptions := [cancelledRow 3 subEnd5] }
    (by rfl) (by rfl)

/-- C10: a successful update (ChangePlan / SetStatus) returns a record with
the same id, user_id and start_date as the stored subscription — only
plan_id, end_date, status and cancelled_at can differ; a successful cancel
leaves id, user_id, plan_id, start_date and end_date of the stored row
unchanged, touching only status and cancelled_at. -/
theorem update_cancel_frame (now : Int) (sid : Nat) (u : SubscriptionUpdate)
    (db : DB) (cu : User) (sub : Subscription)
    (hfind : db.subscriptions.find? (fun s => decide (s.id = sid)) = some sub) :
    (∀ db2 s2, update_subscription now sid u db cu = .ok (db2, s2) →
      s2.id = sub.id ∧ s2.user_id = sub.user_id ∧
      s2.start_date = sub.start_date) ∧
    (∀ db2, cancel_subscription now sid db cu = .ok db2 →
      (db2.subscriptions.find? (fun s => decide (s.id = sid))).map
          Subscription.id = some sub.id ∧
      (db2.subscriptions.find? (fun s => decide (s.id = sid))).map
          Subscription.user_id = some sub.user_id ∧
      (db2.subscriptions.find? (fun s => decide (s.id = sid))).map
          Subscription.plan_id = some sub.plan_id ∧
      (db2.subscriptions.find? (fun s => decide (s.id = sid))).map
          Subscription.start_date = some sub.start_date ∧
      (db2.subscriptions.find? (fun s => decide (s.id = sid))).map
          Subscription.end_date = some sub.end_date) := by
  have hid : sub.id = sid := by simpa using List.find?_some hfind
  constructor
  · intro db2 s2 hupd
    obtain ⟨sub2, pid2, e2, hfind2, hs2, _⟩ := update_ok_shape hupd
    have hsub : sub2 = sub := by
      rw [hfind] at hfind2
      exact (Option.some.inj hfind2).symm
    subst hsub
    obtain ⟨h1, h2, h3, _⟩ := applySubscriptionUpdate_fields now sub2 pid2 e2
      u.status
    rw [hs2]
    exact ⟨h1, h2, h3⟩
  · intro db2 hcancel
    obtain ⟨sub2, hfind2, _, _, _, _, hsubs⟩ := cancel_ok_shape hcancel
    have hsub : sub2 = sub := by
      rw [hfind] at hfind2
      exact (Option.some.inj hfind2).symm
    subst hsub
    have hfind3 : db2.subscriptions.find? (fun s => decide (s.id = sid)) =
        some (cancelledRow now sub2) := by
      rw [hsubs]
      refine find?_updateById_eq sid (cancelledRow now sub2) hid
        db.subscriptions ?_
      rw [hfind]
      rfl
    rw [hfind3]
    exact ⟨rfl, rfl, rfl, rfl, rfl⟩

/-- Witness for C10: on the successful cancel of the fixture subscription,
the stored row keeps its id, user_id, plan_id, start_date and end_date. -/
theorem update_cancel_frame_witness :
    (({ dbEnd5 with subscriptions := [cancelledRow 3 subEnd5] } :
        DB).subscriptions.find? (fun s => decide (s.id = 1))).map
        Subscription.id = some subEnd5.id ∧
    (({ dbEnd5 with subscriptions := [cancelledRow 3 subEnd5] } :
        DB).subscriptions.find? (fun s => decide (s.id = 1))).map
        Subscription.user_id = some subEnd5.user_id ∧
    (({ dbEnd5 with subscriptions := [cancelledRow 3 subEnd5] } :
        DB).subscriptions.find? (fun s => decide (s.id = 1))).map
        Subscription.plan_id = some subEnd5.plan_id ∧
    (({ dbEnd5 with subscriptions := [cancelledRow 3 subEnd5] } :
        DB).subscriptions.find? (fun s => decide (s.id = 1))).map
        Subscription.start_date = some subEnd5.start_date ∧
    (({ dbEnd5 with subscriptions := [cancelledRow 3 subEnd5] } :
        DB).subscriptions.find? (fun s => decide (s.id = 1))).map
        Subscription.end_date = some subEnd5.end_date :=
  (update_cancel_frame 3 1 ⟨none, none⟩ dbEnd5 user1 subEnd5 (by rfl)).2
    { dbEnd5 with subscriptions := [cancelledRow 3 subEnd5] }
    (by rfl)

theorem sweepRow_idem (now : Int) (s : Subscription) :
    sweepRow now (sweepRow now s) = sweepRow now s := by
  by_cases h : s.status = SubscriptionStatus.ACTIVE ∧ s.end_date < now
  · rw [sweepRow_of_selected now s h]
    exact sweepRow_of_not_selected now _ (by simp)
  · rw [sweepRow_of_not_selected now s h, sweepRow_of_not_selected now s h]

/-- C5 counterexample: the claim quantifies over "the same or a later
clock", but with a later clock the second run can transition rows that
became overdue in between.  The fixture subscription ends at t = 5: a sweep
at t = 4 selects nothing, and a second sweep at t = 6 selects and
transitions one row, not zero, changing the state again. -/
theorem sweep_second_run_counterexample :
    (4 : Int) ≤ 6 ∧
    (expiredSelection 6 (check_expired_subscriptions 4 true dbEnd5).1).length
      = 1 ∧
    (check_expired_subscriptions 6 true
        (check_expired_subscriptions 4 true dbEnd5).1).1 ≠
      (check_expired_subscriptions 4 true dbEnd5).1 := by
  refine ⟨by decide, by rfl, by decide⟩

/-- C5 (amended): running the sweep twice in succession with the same clock
transitions each overdue Active row exactly once — the second run selects
zero rows and the state after two runs equals the state after one. -/
theorem sweep_idempotent_same_clock (db : DB) (now : Int) :
    (check_expired_subscriptions now true
        (check_expired_subscriptions now true db).1).1 =
      (check_expired_subscriptions now true db).1 ∧
    (expiredSelection now (check_expired_subscriptions now true db).1).length
      = 0 := by
  constructor
  · show DB.mk db.users db.plans
        ((db.subscriptions.map (sweepRow now)).map (sweepRow now)) =
      DB.mk db.users db.plans (db.subscriptions.map (sweepRow now))
    rw [List.map_map]
    exact congrArg (DB.mk db.users db.plans)
      (List.map_congr_left (fun a _ => sweepRow_idem now a))
  · show ((db.subscriptions.map (sweepRow now)).filter
        (fun s => decide (s.status = SubscriptionStatus.ACTIVE ∧
          s.end_date < now))).length = 0
    rw [List.length_eq_zero, List.filter_eq_nil_iff]
    intro a ha
    obtain ⟨s0, _, rfl⟩ := List.mem_map.mp ha
    simp only [decide_eq_true_eq, not_and]
    intro h1 h2
    obtain ⟨h3, h4⟩ := sweepRow_active now s0 h1
    rw [h4] at h2
    have hsel := sweepRow_of_selected now s0 ⟨h3, h2⟩
    rw [h4] at hsel
    have h5 : s0.status = SubscriptionStatus.EXPIRED := by
      rw [hsel]
    rw [h3] at h5
    exact absurd h5 (by simp)

theorem couplingOk_applyOp (db : DB) (op : Op) (hop : op.couplingOk = true)
    (h : CancelCoupling db.subscriptions) :
    CancelCoupling (applyOp db op).subscriptions := by
  cases op with
  | create now new_id req cu =>
    cases hc : create_subscription now new_id req db cu with
    | error e => simpa [applyOp, hc] using h
    | ok r =>
      obtain ⟨db2, sub⟩ := r
      simp only [applyOp, hc]
      obtain ⟨_, _, hsubs, _, hstat, hca, _⟩ := create_ok_shape hc
      rw [hsubs]
      intro s hs
      rcases List.mem_append.mp hs with hl | hr
      · exact h s hl
      · have he : s = sub := by simpa using hr
        rw [he, hca, hstat]
        simp
  | update now sid u cu =>
    cases hc : update_subscription now sid u db cu with
    | error e => simpa [applyOp, hc] using h
    | ok r =>
      obtain ⟨db2, s2⟩ := r
      simp only [applyOp, hc]
      obtain ⟨sub, pid2, e2, hfind, hs2, _, _, hsubs⟩ := update_ok_shape hc
      rw [hsubs]
      intro s hs
      rcases mem_updateById sid (fun _ => s2) db.subscriptions hs
        with hl | ⟨s0, _, he⟩
      · exact h s hl
      · obtain ⟨_, _, _, _, _, hst, hca⟩ :=
          applySubscriptionUpdate_fields now sub pid2 e2 u.status
        have hsub := h sub (List.mem_of_find?_eq_some hfind)
        rw [he, hs2]
        simp only [Op.couplingOk] at hop
        rcases hu : u.status with _ | v
        · rw [hu] at hst hca
          simp only [Option.getD] at hst
          rw [if_neg (by simp)] at hca
          rw [hst, hca]
          exact hsub
        · rw [hu] at hop
          cases v with
          | ACTIVE => simp at hop
          | EXPIRED => simp at hop
          | CANCELLED =>
            rw [hu] at hst hca
            simp only [Option.getD] at hst
            rw [if_pos rfl] at hca
            rw [hst, hca]
            simp
  | cancel now sid cu =>
    cases hc : cancel_subscription now sid db cu with
    | error e => simpa [applyOp, hc] using h
    | ok db2 =>
      simp only [applyOp, hc]
      obtain ⟨sub, hfind, _, _, _, _, hsubs⟩ := cancel_ok_shape hc
      rw [hsubs]
      intro s hs
      rcases mem_updateById sid _ db.subscriptions hs with hl | ⟨s0, _, he⟩
      · exact h s hl
      · rw [he]
        simp
  | sweep now commit_ok =>
    cases commit_ok with
    | false => simpa [applyOp, check_expired_subscriptions] using h
    | true =>
      simp only [applyOp, check_expired_subscriptions]
      intro s hs
      obtain ⟨s0, hs0, rfl⟩ := List.mem_map.mp hs
      by_cases hsel : s0.status = SubscriptionStatus.ACTIVE ∧
          s0.end_date < now
      · rw [sweepRow_of_selected now s0 hsel]
        have hca : s0.cancelled_at = none := by
          by_contra hne
          have := (h s0 hs0).mp hne
          rw [hsel.1] at this
          exact absurd this (by simp)
        simp [hca]
      · rw [sweepRow_of_not_selected now s0 hsel]
        exact h s0 hs0

/-- C6 counterexample: from a valid state holding a Cancelled subscription
with `cancelled_at = 5`, the status-update path (SetStatus) sets the status
back to ACTIVE without clearing `cancelled_at`, leaving `cancelled_at`
non-null on a non-Cancelled subscription. -/
theorem cancelled_at_coupling_counterexample :
    CancelCoupling dbCancelled.subscriptions ∧
    ¬ CancelCoupling (run dbCancelled
        [Op.update 10 1 ⟨none, some SubscriptionStatus.ACTIVE⟩
          user1]).subscriptions := by
  refine ⟨by decide, by decide⟩

/-- C6 (amended): `cancelled_at` is non-null iff the status is CANCELLED,
preserved by every Create, Cancel and SweepExpired call and by every update
whose target status is absent or CANCELLED; only the unguarded SetStatus
transitions into ACTIVE or EXPIRED (the spec's §9 open question) can break
it. -/
theorem cancelled_at_coupling_preserved (db : DB) (ops : List Op)
    (hops : ∀ op ∈ ops, op.couplingOk = true)
    (h : CancelCoupling db.subscriptions) :
    CancelCoupling (run db ops).subscriptions := by
  induction ops generalizing db with
  | nil => simpa [run] using h
  | cons op rest ih =>
    have h1 := couplingOk_applyOp db op (hops op (List.mem_cons_self op rest)) h
    have h2 := ih (applyOp db op)
      (fun o ho => hops o (List.mem_cons_of_mem _ ho)) h1
    simpa [run, List.foldl_cons] using h2

/-- Witness for C6 (amended): cancel then sweep on the fixture database
keeps the coupling. -/
theorem cancelled_at_coupling_preserved_witness :
    CancelCoupling (run dbEnd5
      [Op.cancel 3 1 user1, Op.sweep 20 true]).subscriptions :=
  cancelled_at_coupling_preserved dbEnd5
    [Op.cancel 3 1 user1, Op.sweep 20 true] (by decide) (by decide)

/-- C7: the sweep never touches a row whose `end_date >= now` or whose
status is not ACTIVE; the only change it ever makes to a row is setting the
status of an Active row strictly past its `end_date` to EXPIRED. -/
theorem sweep_only_expires_overdue_active (db : DB) (now : Int) (i : Nat)
    (hi : i < db.subscriptions.length)
    (hi2 : i < (check_expired_subscriptions now true db).1.subscriptions.length) :
    ((db.subscriptions.get ⟨i, hi⟩).end_date ≥ now ∨
      (db.subscriptions.get ⟨i, hi⟩).status ≠ SubscriptionStatus.ACTIVE →
      (check_expired_subscriptions now true db).1.subscriptions.get ⟨i, hi2⟩ =
        db.subscriptions.get ⟨i, hi⟩) ∧
    ((check_expired_subscriptions now true db).1.subscriptions.get ⟨i, hi2⟩ ≠
        db.subscriptions.get ⟨i, hi⟩ →
      (db.subscriptions.get ⟨i, hi⟩).status = SubscriptionStatus.ACTIVE ∧
      (db.subscriptions.get ⟨i, hi⟩).end_date < now ∧
      (check_expired_subscriptions now true db).1.subscriptions.get ⟨i, hi2⟩ =
        { db.subscriptions.get ⟨i, hi⟩ with
            status := SubscriptionStatus.EXPIRED }) := by
  have hget : (check_expired_subscriptions now true db).1.subscriptions.get
      ⟨i, hi2⟩ = sweepRow now (db.subscriptions.get ⟨i, hi⟩) := by
    show (db.subscriptions.map (sweepRow now)).get ⟨i, hi2⟩ =
      sweepRow now (db.subscriptions.get ⟨i, hi⟩)
    simp [List.get_eq_getElem, List.getElem_map]
  constructor
  · intro hcond
    rw [hget]
    refine sweepRow_of_not_selected now _ ?_
    rintro ⟨h1, h2⟩
    rcases hcond with h3 | h3
    · omega
    · exact h3 h1
  · intro hne
    rw [hget] at hne ⊢
    by_cases hsel : (db.subscriptions.get ⟨i, hi⟩).status =
        SubscriptionStatus.ACTIVE ∧
        (db.subscriptions.get ⟨i, hi⟩).end_date < now
    · exact ⟨hsel.1, hsel.2, sweepRow_of_selected now _ hsel⟩
    · exact absurd (sweepRow_of_not_selected now _ hsel) hne

/-- Witness for C7: at now = 4 the fixture subscription (ends at 5, still
in the future) is untouched by the sweep. -/
theorem sweep_only_expires_overdue_active_witness :
    (check_expired_subscriptions 4 true dbEnd5).1.subscriptions.get
        ⟨0, by decide⟩ = dbEnd5.subscriptions.get ⟨0, by decide⟩ :=
  (sweep_only_expires_overdue_active dbEnd5 4 0 (by decide) (by decide)).1
    (Or.inl (by decide))

/-- C8 counterexample: the service function has no `return` statement, so
the caller receives `None`, never the count of transitioned records: on a
state with exactly one overdue Active row it transitions one row yet
returns `none` (neither `some 1` nor the claimed zero on failure). -/
theorem sweep_returns_no_count_counterexample :
    (expiredSelection 10 dbEnd5).length = 1 ∧
    (check_expired_subscriptions 10 true dbEnd5).2 = none ∧
    (check_expired_subscriptions 10 true dbEnd5).2 ≠ some 1 ∧
    (check_expired_subscriptions 10 false dbEnd5).2 ≠ some 0 := by
  refine ⟨by rfl, by rfl, by decide, by decide⟩

/-- C8 (amended): the sweep returns `None` to its caller in every case (the
count of transitioned records is only logged); on a persistence failure the
whole batch rolls back — the state is exactly the original and no partial
transition is visible — and the caller still receives `None`. -/
theorem sweep_rollback_and_return (db : DB) (now : Int) (commit_ok : Bool) :
    (check_expired_subscriptions now commit_ok db).2 = none ∧
    (commit_ok = false →
      check_expired_subscriptions now commit_ok db = (db, none)) := by
  constructor
  · unfold check_expired_subscriptions
    split <;> rfl
  · intro h
    subst h
    rfl

/-- Witness for C8 (amended): a failing commit at now = 10 leaves the
fixture state untouched and returns `None`. -/
theorem sweep_rollback_and_return_witness :
    (check_expired_subscriptions 10 false dbEnd5).2 = none ∧
    check_expired_subscriptions 10 false dbEnd5 = (dbEnd5, none) :=
  ⟨(sweep_rollback_and_return dbEnd5 10 false).1,
   (sweep_rollback_and_return dbEnd5 10 false).2 rfl⟩
